import Mathlib

/-!
Formal model of the search-index synchronization and hybrid retrieval
subsystem of the tisoda-strapi repository: lifecycle-driven index sync,
Meilisearch keyword search with facets, Qdrant vector search with hybrid
re-ranking, the embedding provider, and the supporting pure helpers
(UUID mapping, text similarity, haversine distance, pagination).

JavaScript semantics relevant to the source are made explicit: string
values are lowercased and trimmed the way the code does, falsiness of
numbers treats 0 like absence, and `x || d` falls back on falsy values.
-/

namespace Tisoda

/-! ## JavaScript string primitives

The services compare strings after `toLowerCase()` and `trim()`, test
`startsWith` and `includes`, and split on whitespace runs.  These are
modelled on the underlying character lists so that every operation
reduces by kernel computation. -/

/-- Trim whitespace from both ends of a character list, as JS `trim()`. -/
def trimChars (l : List Char) : List Char :=
  ((l.dropWhile Char.isWhitespace).reverse.dropWhile Char.isWhitespace).reverse

/-- Lowercase then trim, the normalization both arguments of the text
similarity receive (`query.toLowerCase().trim()`). -/
def jsNormalize (s : String) : String :=
  String.mk (trimChars (s.data.map Char.toLower))

/-- Character-list version of `text.startsWith(pat)`. -/
def startsL : List Char → List Char → Bool
  | [], _ => true
  | _ :: _, [] => false
  | p :: ps, t :: ts => p == t && startsL ps ts

/-- Character-list version of `text.includes(pat)`. -/
def subL (p : List Char) : List Char → Bool
  | [] => startsL p []
  | c :: ts => startsL p (c :: ts) || subL p ts

/-- `t.startsWith(q)` on strings. -/
def jsStartsWith (t q : String) : Bool := startsL q.data t.data

/-- `t.includes(q)` on strings. -/
def jsIncludes (t q : String) : Bool := subL q.data t.data

/-- Collect maximal non-whitespace runs of a character list. -/
def wordsGo : List Char → List Char → List (List Char)
  | [], cur => if cur.isEmpty then [] else [cur.reverse]
  | c :: cs, cur =>
    if Char.isWhitespace c then
      if cur.isEmpty then wordsGo cs [] else cur.reverse :: wordsGo cs []
    else wordsGo cs (c :: cur)

/-- JS `s.split(/\s+/)` for the already-trimmed strings the services pass
to it: the empty string yields `[""]` (as in JS), any other trimmed string
yields its whitespace-separated words. -/
def jsSplitWS (s : String) : List String :=
  if s.data.isEmpty then [""] else (wordsGo s.data []).map String.mk

/-! ## MD5 (Node `crypto.createHash('md5')`)

`ensureValidUUID` hashes non-UUID document identifiers with MD5 and
reformats the hex digest.  The full MD5 algorithm is embedded over `Nat`
with explicit reduction modulo 2^32. -/

/-- 32-bit mask. -/
def w32 : Nat := 4294967296

/-- Left-rotate a 32-bit word. -/
def rotl32 (x c : Nat) : Nat :=
  ((x <<< c) % w32) ||| (x >>> (32 - c))

/-- MD5 per-round left-rotate amounts. -/
def md5Shifts : List Nat :=
  [7, 12, 17, 22, 7, 12, 17, 22, 7, 12, 17, 22, 7, 12, 17, 22,
   5, 9, 14, 20, 5, 9, 14, 20, 5, 9, 14, 20, 5, 9, 14, 20,
   4, 11, 16, 23, 4, 11, 16, 23, 4, 11, 16, 23, 4, 11, 16, 23,
   6, 10, 15, 21, 6, 10, 15, 21, 6, 10, 15, 21, 6, 10, 15, 21]

/-- MD5 sine-derived constants, `floor(abs(sin(i+1)) * 2^32)`. -/
def md5K : List Nat :=
  [3614090360, 3905402710, 606105819, 3250441966,
   4118548399, 1200080426, 2821735955, 4249261313,
   1770035416, 2336552879, 4294925233, 2304563134,
   1804603682, 4254626195, 2792965006, 1236535329,
   4129170786, 3225465664, 643717713, 3921069994,
   3593408605, 38016083, 3634488961, 3889429448,
   568446438, 3275163606, 4107603335, 1163531501,
   2850285829, 4243563512, 1735328473, 2368359562,
   4294588738, 2272392833, 1839030562, 4259657740,
   2763975236, 1272893353, 4139469664, 3200236656,
   681279174, 3936430074, 3572445317, 76029189,
   3654602809, 3873151461, 530742520, 3299628645,
   4096336452, 1126891415, 2878612391, 4237533241,
   1700485571, 2399980690, 4293915773, 2240044497,
   1873313359, 4264355552, 2734768916, 1309151649,
   4149444226, 3174756917, 718787259, 3951481745]

/-- UTF-8 bytes of a code point, as Node encodes the hashed string. -/
def utf8Bytes (c : Char) : List Nat :=
  let n := c.toNat
  if n < 128 then [n]
  else if n < 2048 then [192 ||| (n >>> 6), 128 ||| (n &&& 63)]
  else if n < 65536 then
    [224 ||| (n >>> 12), 128 ||| ((n >>> 6) &&& 63), 128 ||| (n &&& 63)]
  else
    [240 ||| (n >>> 18), 128 ||| ((n >>> 12) &&& 63),
     128 ||| ((n >>> 6) &&& 63), 128 ||| (n &&& 63)]

/-- Bytes of a string under UTF-8. -/
def strBytes (s : String) : List Nat := s.data.flatMap utf8Bytes

/-- Little-endian byte expansion of a number, fixed width. -/
def leBytes : Nat → Nat → List Nat
  | 0, _ => []
  | k + 1, n => (n % 256) :: leBytes k (n / 256)

/-- MD5 padding: append 0x80, zero-fill to 56 mod 64, then the original
bit length as a 64-bit little-endian number. -/
def md5Pad (msg : List Nat) : List Nat :=
  let lenBits := 8 * msg.length
  let zeros := (119 - msg.length % 64) % 64
  msg ++ [128] ++ List.replicate zeros 0 ++ leBytes 8 lenBits

/-- Little-endian 32-bit words of a byte list. -/
def bytesToWords : List Nat → List Nat
  | b0 :: b1 :: b2 :: b3 :: rest =>
    (b0 + 256 * b1 + 65536 * b2 + 16777216 * b3) :: bytesToWords rest
  | _ => []

/-- One of the 64 MD5 mixing steps. -/
def md5Step (m : List Nat) (st : Nat × Nat × Nat × Nat) (i : Nat) :
    Nat × Nat × Nat × Nat :=
  let (a, b, c, d) := st
  let f :=
    if i < 16 then (b &&& c) ||| ((b ^^^ 4294967295) &&& d)
    else if i < 32 then (d &&& b) ||| ((d ^^^ 4294967295) &&& c)
    else if i < 48 then b ^^^ c ^^^ d
    else c ^^^ (b ||| (d ^^^ 4294967295))
  let g :=
    if i < 16 then i
    else if i < 32 then (5 * i + 1) % 16
    else if i < 48 then (3 * i + 5) % 16
    else (7 * i) % 16
  let f' := (f + a + md5K.getD i 0 + m.getD g 0) % w32
  (d, (b + rotl32 f' (md5Shifts.getD i 0)) % w32, b, c)

/-- Process one 512-bit chunk. -/
def md5Chunk (st : Nat × Nat × Nat × Nat) (chunk : List Nat) :
    Nat × Nat × Nat × Nat :=
  let m := bytesToWords chunk
  let (a, b, c, d) := (List.range 64).foldl (md5Step m) st
  let (a0, b0, c0, d0) := st
  ((a0 + a) % w32, (b0 + b) % w32, (c0 + c) % w32, (d0 + d) % w32)

/-- Split a byte list into 64-byte chunks (fuel-driven, so it reduces). -/
def chunksGo : Nat → List Nat → List (List Nat)
  | 0, _ => []
  | _, [] => []
  | fuel + 1, l => l.take 64 :: chunksGo fuel (l.drop 64)

/-- 64-byte chunks of a byte list. -/
def chunks64 (l : List Nat) : List (List Nat) := chunksGo l.length l

/-- Hex digit character for a nibble. -/
def hexDigit (n : Nat) : Char :=
  if n < 10 then Char.ofNat (48 + n) else Char.ofNat (87 + n)

/-- Two lowercase hex digits of a byte. -/
def byteHex (b : Nat) : List Char := [hexDigit (b / 16 % 16), hexDigit (b % 16)]

/-- Lowercase hex rendering of the four little-endian state words. -/
def md5Digest (st : Nat × Nat × Nat × Nat) : String :=
  let (a, b, c, d) := st
  String.mk (([a, b, c, d].flatMap (leBytes 4)).flatMap byteHex)

/-- `crypto.createHash('md5').update(s).digest('hex')`. -/
def md5Hex (s : String) : String :=
  let padded := md5Pad (strBytes s)
  md5Digest ((chunks64 padded).foldl md5Chunk
    (1732584193, 4023233417, 2562383102, 271733878))

/-! ## Deterministic UUID mapping (qdrant.ts, `ensureValidUUID`)

The adapter tests the document identifier against the case-insensitive
regex `[0-9a-f]{8}-[0-9a-f]{4}-[1-5][0-9a-f]{3}-[89ab][0-9a-f]{3}-`
`[0-9a-f]{12}` anchored at both ends; a match passes through unchanged,
anything else is replaced by its hyphenated MD5 digest. -/

/-- `[0-9a-f]` with the `i` flag. -/
def isHexChar (c : Char) : Bool :=
  ('0' ≤ c && c ≤ '9') || ('a' ≤ c && c ≤ 'f') || ('A' ≤ c && c ≤ 'F')

/-- The literal hyphen of the pattern. -/
def isDashChar (c : Char) : Bool := c == '-'

/-- `[1-5]`, the version nibble. -/
def isVersionChar (c : Char) : Bool := '1' ≤ c && c ≤ '5'

/-- `[89ab]` with the `i` flag, the variant nibble. -/
def isVariantChar (c : Char) : Bool :=
  c == '8' || c == '9' || c == 'a' || c == 'b' || c == 'A' || c == 'B'

/-- Match a list of single-character classes against the whole input
(the pattern is anchored with both a caret and a dollar). -/
def classMatch : List (Char → Bool) → List Char → Bool
  | [], [] => true
  | p :: ps, c :: cs => p c && classMatch ps cs
  | _, _ => false

/-- The character classes of the UUID regex, position by position. -/
def uuidClasses : List (Char → Bool) :=
  List.replicate 8 isHexChar ++ [isDashChar] ++
  List.replicate 4 isHexChar ++ [isDashChar] ++
  [isVersionChar] ++ List.replicate 3 isHexChar ++ [isDashChar] ++
  [isVariantChar] ++ List.replicate 3 isHexChar ++ [isDashChar] ++
  List.replicate 12 isHexChar

/-- `uuidRegex.test(documentId)`. -/
def uuidRegexTest (s : String) : Bool := classMatch uuidClasses s.data

/-- JS `s.substring(a, b)`. -/
def jsSubstring (s : String) (a b : Nat) : String :=
  String.mk ((s.data.drop a).take (b - a))

/-- The 8-4-4-4-12 regrouping of a 32-character digest, as the source
joins the five `substring` slices with a hyphen. -/
def hyphenate (hash : String) : String :=
  String.intercalate "-"
    [jsSubstring hash 0 8, jsSubstring hash 8 12, jsSubstring hash 12 16,
     jsSubstring hash 16 20, jsSubstring hash 20 32]

/-- `ensureValidUUID` of the Qdrant adapter: pass a valid UUID through,
otherwise hash deterministically with MD5 and reformat. -/
def ensureValidUUID (documentId : String) : String :=
  if uuidRegexTest documentId then documentId
  else hyphenate (md5Hex documentId)

/-! ## Text similarity and hybrid scoring (vector-first search path)

`calculateTextSimilarity` from the Qdrant-centric service revision, and
the per-candidate hybrid score computed by `searchPlaces`. -/

/-- `calculateTextSimilarity(query, text)`: normalized exact match 1.0,
then startsWith 0.8, then includes 0.6, then word overlap
0.4 * (matching query words / query words), else 0. -/
def calculateTextSimilarity (query text : String) : ℚ :=
  let queryLower := jsNormalize query
  let textLower := jsNormalize text
  if textLower = queryLower then 1
  else if jsStartsWith textLower queryLower then 0.8
  else if jsIncludes textLower queryLower then 0.6
  else
    let queryWords := jsSplitWS queryLower
    let textWords := jsSplitWS textLower
    let matchingWords := queryWords.filter fun qw =>
      textWords.any fun tw => jsIncludes tw qw || jsIncludes qw tw
    if 0 < matchingWords.length then
      0.4 * ((matchingWords.length : ℚ) / (queryWords.length : ℚ))
    else 0

/-- The number of query words that overlap (by mutual containment) some
text word, after normalization — the numerator of the partial-overlap
score. -/
def overlapCount (query text : String) : Nat :=
  ((jsSplitWS (jsNormalize query)).filter fun qw =>
    (jsSplitWS (jsNormalize text)).any fun tw =>
      jsIncludes tw qw || jsIncludes qw tw).length

/-- A hit returned by the vector engine: similarity score and payload
fields used by the re-ranking (absent fields modelled as `none`, read
back with the `|| 0` and `|| ''` fallbacks of the source). -/
structure VectorHit where
  score : Option ℚ
  name : Option String
  address : Option String

/-- The hybrid score `searchPlaces` assigns to one candidate:
`vectorScore * 0.4 + nameMatchScore * 0.5 + addressMatchScore * 0.1`. -/
def hybridScore (query : String) (r : VectorHit) : ℚ :=
  let vectorScore := r.score.getD 0
  let nameMatchScore := calculateTextSimilarity query (r.name.getD "")
  let addressMatchScore := calculateTextSimilarity query (r.address.getD "")
  vectorScore * 0.4 + nameMatchScore * 0.5 + addressMatchScore * 0.1

/-! ## Sorting and pagination of the place search pipeline

After fetching candidates and attaching scores and distances, both
service revisions sort by the requested key with a JS comparator and
then slice.  The current (Meilisearch-based) revision slices
`[offset, offset + limit)`; the legacy revision at
`src/api/place/services/place.ts` slices `[0, limit)`. -/

/-- The `sortBy` request parameter. -/
inductive SortKey
  | relevance
  | rating
  | distance
  | popular
deriving DecidableEq

/-- A candidate as the sorting step sees it: id plus the fields the four
comparators read. -/
structure Candidate where
  documentId : Nat
  searchScore : ℚ
  ratingScore : Option ℚ
  dist : Option ℚ
  quantitySold : Option ℚ
deriving DecidableEq

/-- `c.distance || Infinity`: both a missing and a zero distance are
falsy and become infinity, modelled as `none`. -/
def distOrInf (c : Candidate) : Option ℚ :=
  match c.dist with
  | none => none
  | some x => if x = 0 then none else some x

/-- Ascending comparison where `none` is plus infinity. -/
def leInf : Option ℚ → Option ℚ → Bool
  | _, none => true
  | none, some _ => false
  | some x, some y => x ≤ y

/-- The comparator of the sort switch: `a` may be placed before `b`. -/
def candLe (k : SortKey) (a b : Candidate) : Bool :=
  match k with
  | .relevance => b.searchScore ≤ a.searchScore
  | .rating => b.ratingScore.getD 0 ≤ a.ratingScore.getD 0
  | .distance => leInf (distOrInf a) (distOrInf b)
  | .popular => b.quantitySold.getD 0 ≤ a.quantitySold.getD 0

/-- Insert into a sorted list, keeping `x` before the first element it
may precede. -/
def insertLe (le : Candidate → Candidate → Bool) (x : Candidate) :
    List Candidate → List Candidate
  | [] => [x]
  | y :: ys => if le x y then x :: y :: ys else y :: insertLe le x ys

/-- Sort the scored candidates by the requested key. -/
def sortByKey (k : SortKey) : List Candidate → List Candidate
  | [] => []
  | c :: cs => insertLe (candLe k) c (sortByKey k cs)

/-- The current pipeline: sort the whole candidate set, then
`sortedPlaces.slice(offset, offset + limit)`. -/
def searchPage (k : SortKey) (limit offset : Nat) (cands : List Candidate) :
    List Candidate :=
  ((sortByKey k cands).drop offset).take limit

/-- The legacy pipeline at services/place.ts line 129: sort, then
`sortedPlaces.slice(0, limit)` — the offset never reaches the slice. -/
def searchPageLegacy (k : SortKey) (limit offset : Nat)
    (cands : List Candidate) : List Candidate :=
  (sortByKey k cands).take limit

/-- Ten candidates with distinct relevance scores 1..10. -/
def cexCandidates : List Candidate :=
  [⟨0, 1, none, none, none⟩, ⟨1, 2, none, none, none⟩,
   ⟨2, 3, none, none, none⟩, ⟨3, 4, none, none, none⟩,
   ⟨4, 5, none, none, none⟩, ⟨5, 6, none, none, none⟩,
   ⟨6, 7, none, none, none⟩, ⟨7, 8, none, none, none⟩,
   ⟨8, 9, none, none, none⟩, ⟨9, 10, none, none, none⟩]

/-! ## Lifecycle synchronization (place lifecycles + sync services)

State machine over place ids: the content store records existence and
publish status, the search index mirrors published places.  The hooks:
afterCreate syncs when the result is published; afterUpdate re-syncs a
published result and deletes an unpublished one; afterDelete deletes. -/

/-- Pointwise update of a boolean table over ids. -/
def setId (f : Nat → Bool) (id : Nat) (v : Bool) : Nat → Bool :=
  fun x => if x = id then v else f x

/-- Content-store plus index state. -/
structure SyncState where
  present : Nat → Bool
  published : Nat → Bool
  inIndex : Nat → Bool

/-- Nothing exists and nothing is indexed. -/
def initialSyncState : SyncState :=
  { present := fun _ => false, published := fun _ => false,
    inIndex := fun _ => false }

/-- A content lifecycle event as the hooks receive it: the resulting
entity id and, for create/update, whether `publishedAt` is set. -/
inductive LifecycleEvent
  | create (id : Nat) (pub : Bool)
  | update (id : Nat) (pub : Bool)
  | delete (id : Nat)

/-- Apply a CRUD mutation and then run its after-hook: create syncs only
a published result; update upserts a published result and deletes an
unpublished one from the index; delete removes the index entry.  The
store assigns fresh identifiers, so a create of an id it already holds
cannot happen and is a no-op; an update of an id the store does not know
produces no result, so the hook guard `result && result.id` skips it. -/
def applyEvent (s : SyncState) : LifecycleEvent → SyncState
  | .create id pub =>
    if s.present id then s
    else
      let s' := { s with present := setId s.present id true,
                         published := setId s.published id pub }
      if pub then { s' with inIndex := setId s'.inIndex id true } else s'
  | .update id pub =>
    if s.present id then
      let s' := { s with published := setId s.published id pub }
      if pub then { s' with inIndex := setId s'.inIndex id true }
      else { s' with inIndex := setId s'.inIndex id false }
    else s
  | .delete id =>
    { s with present := setId s.present id false,
             inIndex := setId s.inIndex id false }

/-- Run a sequence of lifecycle events from the empty state. -/
def runEvents (evs : List LifecycleEvent) : SyncState :=
  evs.foldl applyEvent initialSyncState

/-- The mirrored-lifecycle invariant: an index entry exists exactly for
present, published places. -/
def Mirrored (s : SyncState) : Prop :=
  ∀ id, s.inIndex id = (s.present id && s.published id)

/-! ## Keyword search with facets (meili.ts `search`)

The adapter issues two engine queries: the hit query carries the
rendered filter string, sort, limit and offset; the facet query carries
only the free-text query and the facet field list.  The engine itself is
an external collaborator, modelled as a function from requests to
replies. -/

/-- `x || d` on an optional count: zero and absence both fall back. -/
def jsOrNat (o : Option Nat) (d : Nat) : Nat :=
  match o with
  | some n => if n = 0 then d else n
  | none => d

/-- Truthiness of an optional string: absent and empty are falsy. -/
def jsTruthyStr : Option String → Bool
  | some s => s != ""
  | none => false

/-- A request to the keyword engine. -/
structure MeiliQuery where
  q : String
  limit : Nat
  offset : Nat
  filter : Option String
  sort : Option (List String)
  facets : Option (List String)
deriving DecidableEq

/-- A reply from the keyword engine. -/
structure EngineReply where
  hits : List String
  estimatedTotalHits : Option Nat
  facetDistribution : List (String × List (String × Nat))
deriving DecidableEq

/-- The `sortBy` values the keyword adapter accepts. -/
inductive MeiliSortKey
  | rating
  | popular
deriving DecidableEq

/-- Sort direction, defaulting to descending. -/
inductive MeiliSortOrder
  | asc
  | desc
deriving DecidableEq

/-- The parameters of `meiliService.search`. -/
structure MeiliParams where
  query : Option String
  limit : Option Nat
  offset : Option Nat
  categories : Option (List String)
  province : Option String
  district : Option String
  ward : Option String
  minRating : Option ℚ
  sortBy : Option MeiliSortKey
  sortOrder : Option MeiliSortOrder
deriving DecidableEq

/-- Render one quoted value of the categories IN list. -/
def quoteVal (c : String) : String := "\"" ++ c ++ "\""

/-- The filter clauses, in push order: categories IN, province, district,
ward, minimum rating.  Location clauses require a truthy value, the
rating clause any number. -/
def buildFilters (p : MeiliParams) : List String :=
  (match p.categories with
   | some cs =>
     if 0 < cs.length then
       ["categories IN [" ++ String.intercalate ", " (cs.map quoteVal) ++ "]"]
     else []
   | none => []) ++
  (if jsTruthyStr p.province then
    ["province = " ++ quoteVal (p.province.getD "")] else []) ++
  (if jsTruthyStr p.district then
    ["district = " ++ quoteVal (p.district.getD "")] else []) ++
  (if jsTruthyStr p.ward then
    ["ward = " ++ quoteVal (p.ward.getD "")] else []) ++
  (match p.minRating with
   | some r => ["rating >= " ++ toString r]
   | none => [])

/-- The sort parameter: rating or popularity with the requested order. -/
def buildSort (p : MeiliParams) : Option (List String) :=
  let order := match p.sortOrder.getD .desc with
    | .asc => "asc"
    | .desc => "desc"
  match p.sortBy with
  | some .rating => some ["rating:" ++ order]
  | some .popular => some ["quantitySold:" ++ order]
  | none => none

/-- What `meiliService.search` returns. -/
structure MeiliSearchOut where
  hits : List String
  totalHits : Nat
  facetDistribution : List (String × List (String × Nat))
deriving DecidableEq

/-- `meiliService.search`: one filtered, sorted, paginated hit query and
one facet query carrying only the free-text query. -/
def meiliSearch (engine : MeiliQuery → EngineReply) (p : MeiliParams) :
    MeiliSearchOut :=
  let query := p.query.getD ""
  let limit := p.limit.getD 20
  let offset := p.offset.getD 0
  let filters := buildFilters p
  let res := engine
    { q := query, limit := limit, offset := offset,
      filter := if 0 < filters.length then
        some (String.intercalate " AND " filters) else none,
      sort := buildSort p, facets := none }
  let facetRes := engine
    { q := if query = "" then "" else query, limit := 0, offset := 0,
      filter := none, sort := none,
      facets := some ["cityFacet", "provinceFacet", "districtFacet",
                      "wardFacet"] }
  { hits := res.hits,
    totalHits := jsOrNat res.estimatedTotalHits res.hits.length,
    facetDistribution := facetRes.facetDistribution }

/-! ## Embedding provider initialization (embedding.ts `initialize`)

The provider keeps one cached initialization promise.  A call returns
the cached promise when present; otherwise it starts an attempt whose
settled outcome — resolved or rejected — is what `initPromise` then
holds forever: the source never resets the field. -/

/-- The settled outcome of the cached promise. -/
inductive PromiseOutcome
  | resolved
  | rejected
deriving DecidableEq

/-- The mutable state of the provider in the local-model configuration. -/
structure EmbeddingState where
  initPromise : Option PromiseOutcome
  localModel : Bool
deriving DecidableEq

/-- Fresh provider: no cached promise, no model. -/
def embInitial : EmbeddingState := { initPromise := none, localModel := false }

/-- One call to `initialize()`.  `loadOk` says whether the model load
attempted by this call would succeed.  Returns the new state and the
outcome the caller awaits. -/
def initializeFn (loadOk : Bool) (s : EmbeddingState) :
    EmbeddingState × PromiseOutcome :=
  match s.initPromise with
  | some p => (s, p)
  | none =>
    if s.localModel then ({ s with initPromise := some .resolved }, .resolved)
    else if loadOk then
      ({ initPromise := some .resolved, localModel := true }, .resolved)
    else ({ s with initPromise := some .rejected }, .rejected)

/-! ## Quota errors through the search endpoint

The remote embedding call turns an HTTP 429 into the distinguished
quota message and rethrows anything else; the search controller answers
503 exactly when the propagated message contains the quota marker and
500 otherwise. -/

/-- The message of the distinguished quota error. -/
def quotaErrMsg : String :=
  "OpenAI API quota exceeded. Please upgrade your plan or wait for quota reset."

/-- The substring the controller tests for. -/
def quotaMarker : String := "OpenAI API quota exceeded"

/-- An error from the remote embeddings API: HTTP status and message. -/
structure ApiError where
  status : Option Nat
  message : String
deriving DecidableEq

/-- `generateOpenAIEmbedding`: pass a successful embedding through; map a
429 failure to the quota error, rethrow any other failure unchanged. -/
def generateOpenAIEmbedding (apiResult : Except ApiError (List ℚ)) :
    Except String (List ℚ) :=
  match apiResult with
  | .ok emb => .ok emb
  | .error e =>
    if e.status = some 429 then .error quotaErrMsg else .error e.message

/-- The search service around the embedding call: generate the query
embedding, then run the rest of the pipeline; embedding errors
propagate. -/
def searchService (apiResult : Except ApiError (List ℚ))
    (runSearch : List ℚ → List Nat) : Except String (List Nat) :=
  match generateOpenAIEmbedding apiResult with
  | .ok emb => .ok (runSearch emb)
  | .error msg => .error msg

/-- The HTTP status the search controller answers with: 200 on success,
503 when the error message contains the quota marker, 500 otherwise. -/
def searchEndpointStatus (result : Except String (List Nat)) : Nat :=
  match result with
  | .ok _ => 200
  | .error msg => if subL quotaMarker.data msg.data then 503 else 500

/-! ## Full re-sync aggregation (controller `syncAll`) -/

/-- The body the controller returns. -/
structure SyncAllResult where
  success : Bool
  synced : Nat
  failed : Nat
  total : Nat
deriving DecidableEq

/-- The counting loop: each place is attempted once; a successful sync
increments `synced`, a thrown sync is caught and increments `failed`. -/
def syncAllLoop (ok : Nat → Bool) (places : List Nat) (acc : Nat × Nat) :
    Nat × Nat :=
  places.foldl (fun acc p => if ok p then (acc.1 + 1, acc.2) else (acc.1, acc.2 + 1)) acc

/-- `syncAll` over the published places, where `ok p` says whether the
sync of place `p` completes without throwing. -/
def syncAll (ok : Nat → Bool) (places : List Nat) : SyncAllResult :=
  let (synced, failed) := syncAllLoop ok places (0, 0)
  { success := true, synced := synced, failed := failed,
    total := places.length }

/-! ## Document projection (`syncToMeili` mapping) -/

/-- A service component of a place. -/
structure ServiceComp where
  service_name : Option String
  service_group_name : Option String
deriving DecidableEq

/-- A category relation of a place. -/
structure CategoryRef where
  name : Option String
  slug : Option String
deriving DecidableEq

/-- The slice of a place record the projector reads. -/
structure PlaceRecord where
  documentId : String
  name : Option String
  services : List ServiceComp
  category_places : List CategoryRef
deriving DecidableEq

/-- JS `trim()` on a string. -/
def jsTrim (s : String) : String := String.mk (trimChars s.data)

/-- `[...new Set(l)]`: keep the first occurrence of every element. -/
def dedupGo (seen : List String) : List String → List String
  | [] => []
  | x :: xs => if x ∈ seen then dedupGo seen xs else x :: dedupGo (x :: seen) xs

/-- JS Set spread over a string list. -/
def jsSetDedup (l : List String) : List String := dedupGo [] l

/-- The predicate of `.filter((x) => x && typeof x === 'string')` as a
partial projection: keep a truthy string, drop absence and emptiness. -/
def keepTruthy : Option String → Option String
  | some s => if s = "" then none else some s
  | none => none

/-- `.filter((x) => x && typeof x === 'string')` over mapped name
fields: keep truthy strings. -/
def truthyStrings (l : List (Option String)) : List String :=
  l.filterMap keepTruthy

/-- `.map(get).filter(truthy).map(trim)` wrapped in a Set spread. -/
def collectNames (get : ServiceComp → Option String)
    (services : List ServiceComp) : List String :=
  jsSetDedup ((truthyStrings (services.map get)).map jsTrim)

/-- The projected keyword document fields the claim is about. -/
structure MeiliDoc where
  documentId : String
  name : String
  serviceNames : List String
  serviceGroupNames : List String
  categoryNames : List String
  categories : List (Option String)
deriving DecidableEq

/-- The document mapping of `syncToMeili`: categories prefer the slug
with the name as fallback, service and group names are filtered to
truthy strings, trimmed, and deduplicated. -/
def projectToMeili (p : PlaceRecord) : MeiliDoc :=
  { documentId := p.documentId,
    name := p.name.getD "",
    serviceNames := collectNames (fun s => s.service_name) p.services,
    serviceGroupNames :=
      collectNames (fun s => s.service_group_name) p.services,
    categoryNames := truthyStrings (p.category_places.map fun c => c.name),
    categories := p.category_places.map fun c =>
      if jsTruthyStr c.slug then c.slug else c.name }

/-! ## Distance computation (`calculateDistance`)

The guard tests JS falsiness of all four coordinates; the body is the
haversine formula with Earth radius 6371 km.  The `Math` trigonometry is
the external runtime, passed in as a record of functions. -/

/-- The Math functions the formula calls. -/
structure JsMath where
  sin : ℚ → ℚ
  cos : ℚ → ℚ
  sqrt : ℚ → ℚ
  atan2 : ℚ → ℚ → ℚ
  pi : ℚ

/-- `toRad(degrees)`. -/
def toRad (M : JsMath) (degrees : ℚ) : ℚ := degrees * (M.pi / 180)

/-- Falsiness of an optional numeric argument: absent or zero. -/
def jsFalsyNum : Option ℚ → Bool
  | none => true
  | some x => x == 0

/-- The haversine body: `R * c` for Earth radius 6371. -/
def haversine (M : JsMath) (lat1 lon1 lat2 lon2 : ℚ) : ℚ :=
  let R : ℚ := 6371
  let dLat := toRad M (lat2 - lat1)
  let dLon := toRad M (lon2 - lon1)
  let a := M.sin (dLat / 2) * M.sin (dLat / 2) +
    M.cos (toRad M lat1) * M.cos (toRad M lat2) *
    M.sin (dLon / 2) * M.sin (dLon / 2)
  let c := 2 * M.atan2 (M.sqrt a) (M.sqrt (1 - a))
  R * c

/-- `calculateDistance(lat1, lon1, lat2, lon2)`. -/
def calculateDistance (M : JsMath) (lat1 lon1 lat2 lon2 : Option ℚ) :
    Option ℚ :=
  if jsFalsyNum lat1 || jsFalsyNum lon1 || jsFalsyNum lat2 || jsFalsyNum lon2
  then none
  else some (haversine M (lat1.getD 0) (lon1.getD 0) (lat2.getD 0)
    (lon2.getD 0))

/-! # Theorems -/

/-! ## Claim C1 -/

/-- One lifecycle event preserves the mirrored-lifecycle invariant. -/
theorem applyEvent_mirrored {s : SyncState} (e : LifecycleEvent)
    (h : Mirrored s) : Mirrored (applyEvent s e) := by
  cases e with
  | create id pub =>
    intro x
    by_cases hp : s.present id
    · simpa [applyEvent, hp] using h x
    · have hidx : s.inIndex id = false := by
        have hi := h id
        simpa [hp] using hi
      cases pub <;> by_cases hx : x = id <;>
        simp [applyEvent, hp, setId, hx, h x, hidx]
  | update id pub =>
    intro x
    by_cases hp : s.present id
    · cases pub <;> by_cases hx : x = id <;>
        simp [applyEvent, hp, setId, hx, h x]
    · simpa [applyEvent, hp] using h x
  | delete id =>
    intro x
    by_cases hx : x = id <;> simp [applyEvent, setId, hx, h x]

/-- Claim C1: mirrored lifecycle invariant.  After any sequence of
create/update/delete events, processed by the after-hooks of the place
content type, a place has an index entry if and only if it exists and is
published: publishing events upsert, an update that leaves the place
unpublished deletes, and deletion deletes, so no unpublished or deleted
place retains an index entry once its event is processed. -/
theorem mirrored_lifecycle_invariant (evs : List LifecycleEvent) :
    Mirrored (runEvents evs) := by
  have init : Mirrored initialSyncState := by
    intro x; simp [initialSyncState]
  suffices h : ∀ s : SyncState, Mirrored s → Mirrored (evs.foldl applyEvent s)
    from h _ init
  induction evs with
  | nil => intro s hs; exact hs
  | cons e rest ih => intro s hs; exact ih _ (applyEvent_mirrored e hs)

/-! ## Claim C2 -/

/-- Claim C2 counterexample.  In the legacy pipeline at
services/place.ts lines 100-139 the slice after sorting is `[0, limit)`,
so on ten candidates with distinct relevance scores the page requested
with limit 5 and offset 5 is not the 6th to 10th items of the fully
sorted result: it is the top five again. -/
theorem pagination_claim_counterexample :
    searchPageLegacy SortKey.relevance 5 5 cexCandidates ≠
      ((sortByKey SortKey.relevance cexCandidates).drop 5).take 5 := by
  decide

/-- Claim C2 (amended): in the Meilisearch-based revision of the place
service the full candidate set is sorted by the requested key first and
only then sliced `[offset, offset + limit)`, so over the same candidate
set the page of `search(limit, offset)` equals the items
`[offset, offset + limit)` of any larger page starting at zero — in
particular `search(limit=5, offset=5)` returns the 6th to 10th items of
`search(limit=100, offset=0)`; the legacy Qdrant-centric revision at
services/place.ts instead slices `[0, limit)` (its offset is forwarded
to the vector backend before re-ranking), where the property fails. -/
theorem pagination_after_sorting (k : SortKey) (cands : List Candidate)
    (L O L' : Nat) (h : O + L ≤ L') :
    searchPage k L O cands = ((searchPage k L' 0 cands).drop O).take L := by
  unfold searchPage
  rw [List.drop_zero, List.drop_take, List.take_take,
    Nat.min_eq_left (by omega)]

/-- Witness for claim C2 at limit 5, offset 5 against limit 100,
offset 0 on the concrete candidate set. -/
theorem pagination_after_sorting_witness :
    5 + 5 ≤ 100 ∧
      searchPage SortKey.relevance 5 5 cexCandidates =
        ((searchPage SortKey.relevance 100 0 cexCandidates).drop 5).take 5 :=
  ⟨by decide,
    pagination_after_sorting SortKey.relevance cexCandidates 5 5 100
      (by decide)⟩

/-! ## Claim C3 -/

/-- Claim C3: deterministic identifier translation.  The UUID mapping is
a pure function: the same domain identifier always yields the same UUID;
an identifier already matching the UUID pattern passes through
unchanged; any other identifier maps to the hyphenated MD5 digest of the
identifier — a stable hash, never randomly generated. -/
theorem uuid_mapping_stable_and_passthrough :
    ∀ d : String,
      ensureValidUUID d = ensureValidUUID d ∧
      (uuidRegexTest d = true → ensureValidUUID d = d) ∧
      (uuidRegexTest d = false →
        ensureValidUUID d = hyphenate (md5Hex d)) := by
  intro d
  refine ⟨rfl, ?_, ?_⟩ <;> intro h <;> simp [ensureValidUUID, h]

/-- Witness for claim C3: a well-formed UUID passes through unchanged; a
plain document id maps to its hyphenated MD5 digest. -/
theorem uuid_mapping_witness :
    uuidRegexTest "123e4567-e89b-12d3-a456-426614174000" = true ∧
    ensureValidUUID "123e4567-e89b-12d3-a456-426614174000" =
      "123e4567-e89b-12d3-a456-426614174000" ∧
    uuidRegexTest "doc1" = false ∧
    ensureValidUUID "doc1" = hyphenate (md5Hex "doc1") :=
  ⟨by decide,
   (uuid_mapping_stable_and_passthrough _).2.1 (by decide),
   by decide,
   (uuid_mapping_stable_and_passthrough _).2.2 (by decide)⟩

/-! ## Claim C4 -/

/-- Claim C4: hybrid scoring in the vector-first search path.  Every
candidate receives (vector similarity × 0.4) + (name text-match × 0.5) +
(address text-match × 0.1), and the text-match score of a query against
a text is, after lowercasing and trimming both: 1.0 on equality, 0.8 on
a strict prefix-style startsWith match, 0.6 on a strict containment
match, 0.4 × (overlapping query words / total query words) when some
query word overlaps a text word, and 0 otherwise. -/
theorem hybrid_scoring_spec :
    (∀ (query : String) (r : VectorHit),
       hybridScore query r =
         r.score.getD 0 * 0.4 +
         calculateTextSimilarity query (r.name.getD "") * 0.5 +
         calculateTextSimilarity query (r.address.getD "") * 0.1) ∧
    (∀ query text : String,
      (jsNormalize text = jsNormalize query →
        calculateTextSimilarity query text = 1) ∧
      (jsNormalize text ≠ jsNormalize query →
        jsStartsWith (jsNormalize text) (jsNormalize query) = true →
        calculateTextSimilarity query text = 0.8) ∧
      (jsNormalize text ≠ jsNormalize query →
        jsStartsWith (jsNormalize text) (jsNormalize query) = false →
        jsIncludes (jsNormalize text) (jsNormalize query) = true →
        calculateTextSimilarity query text = 0.6) ∧
      (jsNormalize text ≠ jsNormalize query →
        jsStartsWith (jsNormalize text) (jsNormalize query) = false →
        jsIncludes (jsNormalize text) (jsNormalize query) = false →
        0 < overlapCount query text →
        calculateTextSimilarity query text =
          0.4 * ((overlapCount query text : ℚ) /
            ((jsSplitWS (jsNormalize query)).length : ℚ))) ∧
      (jsNormalize text ≠ jsNormalize query →
        jsStartsWith (jsNormalize text) (jsNormalize query) = false →
        jsIncludes (jsNormalize text) (jsNormalize query) = false →
        overlapCount query text = 0 →
        calculateTextSimilarity query text = 0)) := by
  constructor
  · intro query r
    rfl
  · intro query text
    refine ⟨?_, ?_, ?_, ?_, ?_⟩
    · intro h1
      simp [calculateTextSimilarity, h1]
    · intro h1 h2
      simp [calculateTextSimilarity, h1, h2]
    · intro h1 h2 h3
      simp [calculateTextSimilarity, h1, h2, h3]
    · intro h1 h2 h3 h4
      simp only [calculateTextSimilarity, overlapCount] at h4 ⊢
      simp [h1, h2, h3, h4]
    · intro h1 h2 h3 h4
      simp only [calculateTextSimilarity, overlapCount] at h4 ⊢
      simp [h1, h2, h3, h4]

/-- Witness for claim C4: one concrete input per text-match case and the
hybrid weighting at a concrete hit. -/
theorem hybrid_scoring_witness :
    hybridScore "spa" ⟨some 1, some "Spa", some "1 Main Road"⟩ =
      (some (1 : ℚ)).getD 0 * 0.4 +
      calculateTextSimilarity "spa" ((some "Spa").getD "") * 0.5 +
      calculateTextSimilarity "spa" ((some "1 Main Road").getD "") * 0.1 ∧
    calculateTextSimilarity "spa" " SPA " = 1 ∧
    calculateTextSimilarity "spa" "Spa Center" = 0.8 ∧
    calculateTextSimilarity "spa" "Relax Spa" = 0.6 ∧
    calculateTextSimilarity "spa center" "space" =
      0.4 * ((overlapCount "spa center" "space" : ℚ) /
        ((jsSplitWS (jsNormalize "spa center")).length : ℚ)) ∧
    calculateTextSimilarity "spa" "gym" = 0 :=
  ⟨hybrid_scoring_spec.1 "spa" ⟨some 1, some "Spa", some "1 Main Road"⟩,
   (hybrid_scoring_spec.2 "spa" " SPA ").1 (by decide),
   (hybrid_scoring_spec.2 "spa" "Spa Center").2.1 (by decide) (by decide),
   (hybrid_scoring_spec.2 "spa" "Relax Spa").2.2.1 (by decide) (by decide)
     (by decide),
   (hybrid_scoring_spec.2 "spa center" "space").2.2.2.1 (by decide)
     (by decide) (by decide) (by decide),
   (hybrid_scoring_spec.2 "spa" "gym").2.2.2.2 (by decide) (by decide)
     (by decide) (by decide)⟩

/-! ## Claim C5 -/

/-- Claim C5: facet independence.  For any engine and any two parameter
sets sharing the same free-text query — in particular the same query
with and without location, category and rating filters — the keyword
search returns the same facet distribution, because the facet query is
issued separately and never carries the filter clauses. -/
theorem facet_independence (engine : MeiliQuery → EngineReply)
    (p1 p2 : MeiliParams) (h : p1.query = p2.query) :
    (meiliSearch engine p1).facetDistribution =
      (meiliSearch engine p2).facetDistribution := by
  simp only [meiliSearch, h]

/-- Witness for claim C5: a concrete engine whose facet reply depends on
whether the request carries a filter, queried for "spa" once with a
district filter and once without. -/
theorem facet_independence_witness :
    (MeiliParams.mk (some "spa") none none none none (some "quan-1") none
        none none none).query =
      (MeiliParams.mk (some "spa") none none none none none none none none
        none).query ∧
    (meiliSearch
        (fun req =>
          { hits := [], estimatedTotalHits := none,
            facetDistribution :=
              if req.filter = none then [("districtFacet", [("quan-1", 3)])]
              else [("districtFacet", [("quan-1", 1)])] })
        (MeiliParams.mk (some "spa") none none none none (some "quan-1") none
          none none none)).facetDistribution =
      (meiliSearch
        (fun req =>
          { hits := [], estimatedTotalHits := none,
            facetDistribution :=
              if req.filter = none then [("districtFacet", [("quan-1", 3)])]
              else [("districtFacet", [("quan-1", 1)])] })
        (MeiliParams.mk (some "spa") none none none none none none none none
          none)).facetDistribution :=
  ⟨rfl, facet_independence _ _ _ rfl⟩

/-! ## Claim C6 -/

/-- Claim C6 counterexample.  After one failed initialization attempt, a
later call that could load the model successfully still returns the
cached rejected promise and leaves the model unloaded: the failure is
cached forever, not discarded as "uninitialized". -/
theorem initialize_retry_counterexample :
    (initializeFn true (initializeFn false embInitial).1).2 =
        PromiseOutcome.rejected ∧
      (initializeFn true (initializeFn false embInitial).1).1.localModel =
        false := by
  decide

/-- Claim C6 (amended): initialization is lazy and memoized — any call
made while a promise is cached returns exactly that cached promise and
changes nothing, so concurrent callers share one attempt and the model
is loaded at most once; but a failed attempt is cached permanently:
the rejected promise stays in the cache and every later call returns it
without a fresh attempt. -/
theorem initialize_memoized_and_poisoned :
    (∀ (b : Bool) (s : EmbeddingState) (p : PromiseOutcome),
      s.initPromise = some p → initializeFn b s = (s, p)) ∧
    (∀ b : Bool,
      (initializeFn b (initializeFn false embInitial).1).2 =
        PromiseOutcome.rejected) := by
  constructor
  · intro b s p h
    simp [initializeFn, h]
  · intro b
    cases b <;> decide

/-- Witness for claim C6: a concrete cached-resolved state is returned
unchanged, and the call after a failed attempt yields the cached
rejection. -/
theorem initialize_memoized_witness :
    (EmbeddingState.mk (some PromiseOutcome.resolved) true).initPromise =
        some PromiseOutcome.resolved ∧
      initializeFn false
          (EmbeddingState.mk (some PromiseOutcome.resolved) true) =
        (EmbeddingState.mk (some PromiseOutcome.resolved) true,
          PromiseOutcome.resolved) ∧
      (initializeFn true (initializeFn false embInitial).1).2 =
        PromiseOutcome.rejected :=
  ⟨rfl,
   initialize_memoized_and_poisoned.1 false
     (EmbeddingState.mk (some PromiseOutcome.resolved) true)
     PromiseOutcome.resolved rfl,
   initialize_memoized_and_poisoned.2 true⟩

/-! ## Claim C7 -/

/-- Claim C7: quota errors are a distinguished degraded-capacity
condition.  A 429 from the embedding backend becomes the distinguished
quota error, whose message carries the quota marker while no status
other than 429 produces it from a marker-free backend message; the
search endpoint answers 503 exactly for propagated errors carrying the
marker, 500 for every other error, and 200 on success — every case is a
response, never a crash. -/
theorem quota_error_distinguished :
    (∀ e : ApiError, e.status = some 429 →
      generateOpenAIEmbedding (.error e) = .error quotaErrMsg) ∧
    subL quotaMarker.data quotaErrMsg.data = true ∧
    (∀ e : ApiError, e.status ≠ some 429 →
      generateOpenAIEmbedding (.error e) = .error e.message) ∧
    (∀ (e : ApiError) (run : List ℚ → List Nat), e.status = some 429 →
      searchEndpointStatus (searchService (.error e) run) = 503) ∧
    (∀ (e : ApiError) (run : List ℚ → List Nat), e.status ≠ some 429 →
      subL quotaMarker.data e.message.data = false →
      searchEndpointStatus (searchService (.error e) run) = 500) ∧
    (∀ (emb : List ℚ) (run : List ℚ → List Nat),
      searchEndpointStatus (searchService (.ok emb) run) = 200) := by
  refine ⟨?_, by decide, ?_, ?_, ?_, ?_⟩
  · intro e h
    simp [generateOpenAIEmbedding, h]
  · intro e h
    simp [generateOpenAIEmbedding, h]
  · intro e run h
    simp [searchService, generateOpenAIEmbedding, h, searchEndpointStatus]
    decide
  · intro e run h hm
    simp [searchService, generateOpenAIEmbedding, h, searchEndpointStatus,
      hm]
  · intro emb run
    simp [searchService, generateOpenAIEmbedding, searchEndpointStatus]

/-- Witness for claim C7: a concrete 429 error maps to the quota message
and a 503; a concrete unrelated error keeps its message and maps to a
500; a concrete success answers 200. -/
theorem quota_error_witness :
    (ApiError.mk (some 429) "Too Many Requests").status = some 429 ∧
    generateOpenAIEmbedding
        (.error (ApiError.mk (some 429) "Too Many Requests")) =
      .error quotaErrMsg ∧
    searchEndpointStatus
        (searchService (.error (ApiError.mk (some 429) "Too Many Requests"))
          (fun _ => [])) = 503 ∧
    searchEndpointStatus
        (searchService (.error (ApiError.mk (some 500) "connection reset"))
          (fun _ => [])) = 500 ∧
    searchEndpointStatus (searchService (.ok [1]) (fun _ => [7])) = 200 :=
  ⟨rfl,
   quota_error_distinguished.1 (ApiError.mk (some 429) "Too Many Requests")
     rfl,
   quota_error_distinguished.2.2.2.1
     (ApiError.mk (some 429) "Too Many Requests") (fun _ => []) rfl,
   quota_error_distinguished.2.2.2.2.1
     (ApiError.mk (some 500) "connection reset") (fun _ => [])
     (by decide) (by decide),
   quota_error_distinguished.2.2.2.2.2 [1] (fun _ => [7])⟩

/-! ## Claim C8 -/

/-- The counting loop adds the number of successes and failures of the
traversed places to the accumulator. -/
theorem syncAllLoop_spec (ok : Nat → Bool) (places : List Nat) :
    ∀ acc : Nat × Nat,
      syncAllLoop ok places acc =
        (acc.1 + (places.filter (fun p => ok p)).length,
         acc.2 + (places.filter (fun p => !ok p)).length) := by
  induction places with
  | nil => intro acc; simp [syncAllLoop]
  | cons p rest ih =>
    intro acc
    by_cases h : ok p <;>
      simp [syncAllLoop, List.foldl_cons, h] <;>
      rw [show List.foldl _ _ rest = syncAllLoop ok rest _ from rfl, ih] <;>
      simp <;> omega

/-- Claim C8: full re-sync aggregation.  `syncAll` attempts every place
once, counts exactly the places whose sync completed without throwing as
synced and the rest as failed, returns synced + failed = total with
total the number of places, and returns normally. -/
theorem syncAll_aggregation (ok : Nat → Bool) (places : List Nat) :
    (syncAll ok places).synced + (syncAll ok places).failed =
        (syncAll ok places).total ∧
      (syncAll ok places).synced =
        (places.filter (fun p => ok p)).length ∧
      (syncAll ok places).failed =
        (places.filter (fun p => !ok p)).length ∧
      (syncAll ok places).total = places.length ∧
      (syncAll ok places).success = true := by
  have h := syncAllLoop_spec ok places (0, 0)
  have hlen : (places.filter (fun p => ok p)).length +
      (places.filter (fun p => !ok p)).length = places.length := by
    rw [← List.length_append]
    exact List.Perm.length_eq (List.filter_append_perm _ places)
  refine ⟨?_, ?_, ?_, ?_, rfl⟩ <;> simp only [syncAll] <;> rw [h] <;>
    simp <;> omega

/-! ## Claim C9 -/

/-- Membership in the Set-spread model: an element survives iff it
occurs in the input and was not already seen. -/
theorem mem_dedupGo (x : String) :
    ∀ (l seen : List String), x ∈ dedupGo seen l ↔ x ∈ l ∧ x ∉ seen := by
  intro l
  induction l with
  | nil => intro seen; simp [dedupGo]
  | cons y ys ih =>
    intro seen
    by_cases hy : y ∈ seen
    · rw [dedupGo, if_pos hy]
      by_cases hxy : x = y
      · subst hxy; simp [ih, hy]
      · simp [ih, List.mem_cons, hxy]
    · rw [dedupGo, if_neg hy]
      by_cases hxy : x = y
      · subst hxy; simp [hy]
      · simp [List.mem_cons, hxy, ih]

/-- The Set-spread model never repeats an element. -/
theorem nodup_dedupGo :
    ∀ (l seen : List String), (dedupGo seen l).Nodup := by
  intro l
  induction l with
  | nil => intro seen; simp [dedupGo]
  | cons y ys ih =>
    intro seen
    by_cases hy : y ∈ seen
    · rw [dedupGo, if_pos hy]; exact ih seen
    · rw [dedupGo, if_neg hy]
      refine List.nodup_cons.mpr ⟨?_, ih (y :: seen)⟩
      intro hmem
      exact ((mem_dedupGo y ys (y :: seen)).mp hmem).2
        (List.mem_cons_self y seen)

/-- Membership characterization of the projected name lists: a string
appears iff some service carries a truthy name that trims to it. -/
theorem mem_collectNames (get : ServiceComp → Option String)
    (services : List ServiceComp) (s : String) :
    s ∈ collectNames get services ↔
      ∃ svc ∈ services, ∃ n, get svc = some n ∧ n ≠ "" ∧ jsTrim n = s := by
  simp only [collectNames, jsSetDedup, mem_dedupGo, List.not_mem_nil,
    not_false_iff, and_true, List.mem_map, truthyStrings,
    List.mem_filterMap]
  constructor
  · rintro ⟨n, ⟨o, ⟨svc, hsvc, rfl⟩, ho⟩, rfl⟩
    cases hget : get svc with
    | none => rw [hget] at ho; cases ho
    | some m =>
      rw [hget] at ho
      by_cases hm : m = ""
      · simp [keepTruthy, hm] at ho
      · simp only [keepTruthy, if_neg hm] at ho
        cases ho
        exact ⟨svc, hsvc, n, hget, hm, rfl⟩
  · rintro ⟨svc, hsvc, n, hget, hne, rfl⟩
    exact ⟨n, ⟨get svc, ⟨svc, hsvc, rfl⟩,
      by simp [hget, keepTruthy, hne]⟩, rfl⟩

/-- The scenario place: name Relax Spa, duplicated Massage service, one
category with name Beauty and slug beauty. -/
def relaxSpa : PlaceRecord :=
  { documentId := "relax-spa", name := some "Relax Spa",
    services := [⟨some "Massage", none⟩, ⟨some "Massage", none⟩],
    category_places := [⟨some "Beauty", some "beauty"⟩] }

/-- Claim C9: projector deduplication and canonical category values.
For every place, the projected service-name and service-group-name
lists are duplicate-free and contain exactly the trimmed truthy source
names (comparison case-sensitive after trimming); the categories list
maps each category to its slug, falling back to the name only when the
slug is not truthy.  On the scenario place with services Massage,
Massage and category Beauty/beauty the projection yields serviceNames
[Massage] and categories [beauty]. -/
theorem projector_dedup_and_categories :
    (∀ p : PlaceRecord,
      (projectToMeili p).serviceNames.Nodup ∧
      (∀ s, s ∈ (projectToMeili p).serviceNames ↔
        ∃ svc ∈ p.services, ∃ n, svc.service_name = some n ∧ n ≠ "" ∧
          jsTrim n = s) ∧
      (projectToMeili p).serviceGroupNames.Nodup ∧
      (∀ s, s ∈ (projectToMeili p).serviceGroupNames ↔
        ∃ svc ∈ p.services, ∃ n, svc.service_group_name = some n ∧ n ≠ "" ∧
          jsTrim n = s) ∧
      (projectToMeili p).categories = p.category_places.map (fun c =>
        if jsTruthyStr c.slug then c.slug else c.name)) ∧
    (projectToMeili relaxSpa).serviceNames = ["Massage"] ∧
    (projectToMeili relaxSpa).categories = [some "beauty"] := by
  refine ⟨fun p => ⟨?_, ?_, ?_, ?_, rfl⟩, by decide, by decide⟩
  · exact nodup_dedupGo _ _
  · intro s; exact mem_collectNames _ _ s
  · exact nodup_dedupGo _ _
  · intro s; exact mem_collectNames _ _ s

/-! ## Claim C10 -/

/-- Claim C10: distance computation guard and formula.  The distance is
null exactly when some coordinate is absent or equal to zero — the
guard tests JS falsiness, so a point on the equator or prime meridian
always gets a null distance — and on four non-falsy coordinates it is
the haversine great-circle distance with Earth radius 6371 km. -/
theorem calculateDistance_falsiness_and_haversine (M : JsMath) :
    (∀ lat1 lon1 lat2 lon2 : Option ℚ,
      calculateDistance M lat1 lon1 lat2 lon2 = none ↔
        (jsFalsyNum lat1 || jsFalsyNum lon1 || jsFalsyNum lat2 ||
          jsFalsyNum lon2) = true) ∧
    (∀ a b c d : ℚ, a ≠ 0 → b ≠ 0 → c ≠ 0 → d ≠ 0 →
      calculateDistance M (some a) (some b) (some c) (some d) =
        some (haversine M a b c d)) ∧
    (∀ lon1 lat2 lon2 : Option ℚ,
      calculateDistance M (some 0) lon1 lat2 lon2 = none) ∧
    (∀ lat1 lat2 lon2 : Option ℚ,
      calculateDistance M lat1 (some 0) lat2 lon2 = none) := by
  refine ⟨?_, ?_, ?_, ?_⟩
  · intro lat1 lon1 lat2 lon2
    by_cases h : (jsFalsyNum lat1 || jsFalsyNum lon1 || jsFalsyNum lat2 ||
        jsFalsyNum lon2) = true
    · simp [calculateDistance, h]
    · simp [calculateDistance, h]
  · intro a b c d ha hb hc hd
    simp [calculateDistance, jsFalsyNum, ha, hb, hc, hd]
  · intro lon1 lat2 lon2
    simp [calculateDistance, jsFalsyNum]
  · intro lat1 lat2 lon2
    simp [calculateDistance, jsFalsyNum]

/-- Witness for claim C10 with a concrete Math record: four nonzero
coordinates produce the haversine value, a zero latitude produces
null. -/
theorem calculateDistance_witness :
    (1 : ℚ) ≠ 0 ∧ (2 : ℚ) ≠ 0 ∧ (3 : ℚ) ≠ 0 ∧ (4 : ℚ) ≠ 0 ∧
    calculateDistance (JsMath.mk id id id (fun x _ => x) 3)
        (some 1) (some 2) (some 3) (some 4) =
      some (haversine (JsMath.mk id id id (fun x _ => x) 3) 1 2 3 4) ∧
    calculateDistance (JsMath.mk id id id (fun x _ => x) 3)
        (some 0) (some 2) (some 3) (some 4) = none :=
  ⟨by decide, by decide, by decide, by decide,
   (calculateDistance_falsiness_and_haversine
      (JsMath.mk id id id (fun x _ => x) 3)).2.1 1 2 3 4
     (by decide) (by decide) (by decide) (by decide),
   (calculateDistance_falsiness_and_haversine
      (JsMath.mk id id id (fun x _ => x) 3)).2.2.1 (some 2) (some 3)
     (some 4)⟩

end Tisoda
